import Mathlib

/-!
# Verification of the price_tracker repository

A shallow embedding, in Lean 4, of the two core components of the
`price_tracker` Go repository and of the CLI entry point's output
construction, together with theorems settling the frozen claims about
them:

* the EMMSA price scraper (`internal/api/emmsa`): `parsePriceTable` and
  the status check of `ScrapePrices`;
* the Pantry basket store client (`internal/storage/pantry`):
  `BasketName`, `NewConfigFromEnv`, `CreateBasket`, `BasketExists`,
  `ListBaskets`, `UpdateBasket`, `GetBasket`, and the shared error-body
  decoding policy;
* the output shape of `runPriceScraping` in `cmd/price-tracker/main.go`.

Modelling conventions:

* Machine floats (`float64`) are modelled as rationals (`ℚ`); the claims
  under scrutiny concern parse success/failure and record structure, not
  float rounding.
* `time.Time` values are modelled by their calendar date (`Date`), the
  only part the repository's formatting uses.
* One HTTP exchange is modelled by a `transport` function from the issued
  request to an outcome: either a transport-level failure (the `err` of
  `httpClient.Do`) or a response carrying status code, raw status line
  and body.
* HTML parsing by goquery is abstracted as a function from the body to
  the list of table rows, each row the list of its `td` cell texts
  (`goquery.NewDocumentFromReader` cannot fail on an in-memory byte
  slice, and `doc.Find("table tr")` / `s.Find("td")` are pure
  extractions from the parsed document).
* JSON texts are modelled by a `Json` value tree; a response body is
  `Option Json` (`none` when the body is not valid JSON).
* Go functions returning `(T, error)` are modelled as `Except String T`;
  methods are in state-passing style, returning the receiver alongside
  the result, so that frame properties are statable.
-/

/-! ## Characters, digits and zero-padded decimal formatting -/

/-- ASCII decimal digit test, `'0'` through `'9'`. -/
def isDigitChar (c : Char) : Bool :=
  48 ≤ c.toNat && c.toNat ≤ 57

/-- The decimal digit character for a digit value (Go emits `'0' + d`). -/
def digitChar : Nat → Char
  | 0 => '0' | 1 => '1' | 2 => '2' | 3 => '3' | 4 => '4'
  | 5 => '5' | 6 => '6' | 7 => '7' | 8 => '8' | _ => '9'

/-- Most-significant-first decimal digit characters of `n`, with explicit
fuel so the definition is structural and kernel-reducible. -/
def natDigitsAux : Nat → Nat → List Char
  | 0, _ => []
  | fuel + 1, n =>
    if n < 10 then [digitChar n]
    else natDigitsAux fuel (n / 10) ++ [digitChar (n % 10)]

/-- Decimal digit characters of `n`, most significant first (`0 ↦ "0"`). -/
def natDigits (n : Nat) : List Char :=
  natDigitsAux (n + 1) n

/-- Decimal rendering of `n` left-padded with `'0'` to width `w`, as Go's
`time` package pads year, month and day fields. -/
def padZero (w n : Nat) : String :=
  ⟨List.replicate (w - (natDigits n).length) '0' ++ natDigits n⟩

/-- Whitespace characters trimmed by Go's `strings.TrimSpace` (ASCII part). -/
def isSpaceChar (c : Char) : Bool :=
  c = ' ' || c = '\t' || c = '\n' || c = '\r' || c.toNat = 11 || c.toNat = 12

/-- Model of Go's `strings.TrimSpace`: drop leading and trailing whitespace. -/
def trimSpace (s : String) : String :=
  ⟨((s.data.dropWhile isSpaceChar).reverse.dropWhile isSpaceChar).reverse⟩

/-! ## Calendar dates and the repository's date formats -/

/-- The calendar-date part of a Go `time.Time`, the only part the
repository's formatting directives (`2006-01-02`, `2006_01_02`,
`02/01/2006`) consume. -/
structure Date where
  year : Nat
  month : Nat
  day : Nat
deriving Repr, DecidableEq

/-- Go `date.Format("2006-01-02")`: ISO date, zero-padded. -/
def formatISODate (d : Date) : String :=
  padZero 4 d.year ++ "-" ++ padZero 2 d.month ++ "-" ++ padZero 2 d.day

/-- Go `date.Format("02/01/2006")`: the provider's `DD/MM/YYYY` layout,
built by `ScrapePrices` for the `vfecha` form field. -/
def formatProviderDate (d : Date) : String :=
  padZero 2 d.day ++ "/" ++ padZero 2 d.month ++ "/" ++ padZero 4 d.year

/-! ## Decimal number parsing (model of `strconv.ParseFloat`)

`strconv.ParseFloat(s, 64)` on the decimal forms: optional sign, digits
with an optional fractional part (at least one digit in total), optional
decimal exponent, and nothing else; the value is returned exactly, as a
rational. -/

/-- Consume an optional leading sign; returns (negative?, rest). -/
def parseSign : List Char → Bool × List Char
  | '+' :: rest => (false, rest)
  | '-' :: rest => (true, rest)
  | l => (false, l)

/-- Numeric value of a digit-character list (most significant first). -/
def digitsToNat (l : List Char) : Nat :=
  l.foldl (fun acc c => 10 * acc + (c.toNat - 48)) 0

/-- Parse the unsigned part of a decimal literal: `digits [. digits] [exp]`,
requiring at least one mantissa digit and no trailing characters. -/
def parseDecimalCore (l : List Char) : Option ℚ :=
  let ip := l.takeWhile isDigitChar
  let r1 := l.dropWhile isDigitChar
  let fr :=
    match r1 with
    | '.' :: t => (t.takeWhile isDigitChar, t.dropWhile isDigitChar)
    | _ => ([], r1)
  let fp := fr.1
  let r2 := fr.2
  if ip.length + fp.length = 0 then none
  else
    let mant : ℚ := (digitsToNat (ip ++ fp) : ℚ) / ((10 : ℚ) ^ fp.length)
    match r2 with
    | [] => some mant
    | e :: t =>
      if e = 'e' || e = 'E' then
        let se := parseSign t
        let ed := se.2.takeWhile isDigitChar
        let tl := se.2.dropWhile isDigitChar
        if ed.length = 0 || tl ≠ [] then none
        else if se.1 then some (mant / (10 : ℚ) ^ digitsToNat ed)
        else some (mant * (10 : ℚ) ^ digitsToNat ed)
      else none

/-- Model of `strconv.ParseFloat` on decimal literals: `none` exactly when
Go would return a parse error (special forms such as `Inf`/`NaN`/hex are
outside the provider's data and not modelled). -/
def parseFloat (s : String) : Option ℚ :=
  let sg := parseSign s.data
  match parseDecimalCore sg.2 with
  | none => none
  | some q => some (if sg.1 then -q else q)

/-! ## The EMMSA scraper (`internal/api/emmsa`) -/

/-- `EMMSAPrice` from the scraper package: one record per parsed table row. -/
structure EMMSAPrice where
  date : String
  product : String
  variedad : String
  precioMin : ℚ
  precioMax : ℚ
  precioProm : ℚ
deriving Repr, DecidableEq

/-- The per-row body of the `doc.Find("table tr").Each` callback in
`parsePriceTable` (for a non-header row): `none` when the row is skipped
(fewer than 5 cells, or one of the three price cells fails to parse),
`some record` otherwise. Cell texts are trimmed exactly as in the source. -/
def parseRow (date : Date) (cells : List String) : Option EMMSAPrice :=
  if cells.length < 5 then none
  else
    let product := trimSpace (cells.getD 0 "")
    let variedad := trimSpace (cells.getD 1 "")
    let precioMinStr := trimSpace (cells.getD 2 "")
    let precioMaxStr := trimSpace (cells.getD 3 "")
    let precioPromStr := trimSpace (cells.getD 4 "")
    match parseFloat precioMinStr, parseFloat precioMaxStr,
          parseFloat precioPromStr with
    | some precioMin, some precioMax, some precioProm =>
      some { date := formatISODate date
             product := product
             variedad := variedad
             precioMin := precioMin
             precioMax := precioMax
             precioProm := precioProm }
    | _, _, _ => none

/-- `parsePriceTable` from the scraper: iterate the table rows with their
index (as goquery's `Each` does), skip index 0 (the header), and append
one record per row the callback accepts. `rows` is the list of `tr`
elements, each given as the list of its `td` cell texts. -/
def parsePriceTable (rows : List (List String)) (date : Date) : List EMMSAPrice :=
  rows.enum.foldl
    (fun prices p =>
      if p.1 = 0 then prices
      else
        match parseRow date p.2 with
        | none => prices
        | some price => prices ++ [price])
    []

/-- Specification-side predicate: a data row is well formed when it has at
least 5 cells and its three price cells (after trimming) parse as decimals. -/
def rowWellFormed (cells : List String) : Bool :=
  decide (5 ≤ cells.length)
    && (parseFloat (trimSpace (cells.getD 2 ""))).isSome
    && (parseFloat (trimSpace (cells.getD 3 ""))).isSome
    && (parseFloat (trimSpace (cells.getD 4 ""))).isSome

/-- Specification-side record constructor for a well-formed row. -/
def rowRecord (date : Date) (cells : List String) : EMMSAPrice :=
  { date := formatISODate date
    product := trimSpace (cells.getD 0 "")
    variedad := trimSpace (cells.getD 1 "")
    precioMin := (parseFloat (trimSpace (cells.getD 2 ""))).getD 0
    precioMax := (parseFloat (trimSpace (cells.getD 3 ""))).getD 0
    precioProm := (parseFloat (trimSpace (cells.getD 4 ""))).getD 0 }

/-- An HTTP response as the scraper sees it after reading the body. -/
structure ScrapeResponse where
  statusCode : Nat
  body : String
deriving Repr, DecidableEq

/-- Outcome of the one outbound HTTP exchange of `ScrapePrices`. -/
inductive ScrapeOutcome where
  | failure (msg : String)
  | response (resp : ScrapeResponse)
deriving Repr, DecidableEq

/-- `ScrapePrices` from the scraper, after the request has been issued:
a transport failure is wrapped; a non-200 status yields the upstream
error carrying the status code and the raw body; a 200 response is parsed
by `parsePriceTable`. `tableOf` abstracts goquery's extraction of the
table rows from the HTML body (which cannot fail on an in-memory body). -/
def ScrapePrices (date : Date) (outcome : ScrapeOutcome)
    (tableOf : String → List (List String)) : Except String (List EMMSAPrice) :=
  match outcome with
  | .failure msg => .error ("error sending request: " ++ msg)
  | .response resp =>
    if resp.statusCode ≠ 200 then
      .error ("API request failed with status " ++ toString resp.statusCode
        ++ ": " ++ resp.body)
    else
      .ok (parsePriceTable (tableOf resp.body) date)

/-! ## JSON values

A model of the JSON texts exchanged with the Pantry API. A response body
is `Option Json`: `none` when the body is not valid JSON at all. -/

/-- A JSON value. -/
inductive Json where
  | null
  | bool (b : Bool)
  | num (q : ℚ)
  | str (s : String)
  | arr (elems : List Json)
  | obj (fields : List (String × Json))

/-- Is the top-level JSON value a bare array? -/
def Json.isBareArray : Json → Bool
  | .arr _ => true
  | _ => false

/-! ## The Pantry basket store client (`internal/storage/pantry`) -/

/-- `ErrorResponse` from the pantry package: the shape the client tries to
decode a non-OK body into (Go: `struct with Message string, json tag
"message"`). -/
structure ErrorResponse where
  Message : String
deriving Repr, DecidableEq

/-- ASCII lower-casing of one character. -/
def lowerAscii (c : Char) : Char :=
  if 65 ≤ c.toNat ∧ c.toNat ≤ 90 then Char.ofNat (c.toNat + 32) else c

/-- ASCII lower-casing of a JSON object key, for `encoding/json`'s
case-insensitive field-name matching. -/
def keyToLower (s : String) : String :=
  ⟨s.data.map lowerAscii⟩

/-- Assign the JSON object's fields onto an `ErrorResponse` the way
`encoding/json` does: keys are matched case-insensitively against
`message`, later duplicates overwrite, a `null` value leaves the field
unchanged, a non-string value is a decode error, unknown keys are
ignored. `acc` is the value of `Message` so far (zero value `""`). -/
def decodeErrorFields : List (String × Json) → String → Option String
  | [], acc => some acc
  | (k, v) :: rest, acc =>
    if keyToLower k = "message" then
      match v with
      | .str s => decodeErrorFields rest s
      | .null => decodeErrorFields rest acc
      | _ => none
    else decodeErrorFields rest acc

/-- Model of `json.Unmarshal(body, &errResp)` for `ErrorResponse`:
fails on invalid JSON and on top-level values that are not an object
(or `null`); succeeds with the zero value for `{}` or `null`. -/
def unmarshalErrorResponse : Option Json → Option ErrorResponse
  | none => none
  | some .null => some { Message := "" }
  | some (.obj fields) => (decodeErrorFields fields "").map fun m => { Message := m }
  | some _ => none

/-- Model of decoding a JSON body into `[]string` (`ListBaskets`):
a JSON `null` leaves the nil slice, an array must be all strings
(an element `null` leaves a zero-value `""` entry). -/
def decodeStringArray : Option Json → Option (List String)
  | none => none
  | some .null => some []
  | some (.arr elems) =>
    elems.mapM fun e =>
      match e with
      | .str s => some s
      | .null => some ""
      | _ => none
  | some _ => none

/-- An HTTP response as the pantry client sees it: a numeric status code,
the raw status line (Go's `resp.Status`, e.g. `"400 Bad Request"`), and
the body as JSON when it is valid JSON. -/
structure PantryResponse where
  statusCode : Nat
  status : String
  body : Option Json

/-- Outcome of one HTTP exchange by `httpClient.Do`: a transport-level
failure with its error text, or a response. -/
inductive PantryOutcome where
  | failure (msg : String)
  | response (resp : PantryResponse)

/-- A request issued by the client: method, URL, optional Content-Type
header and optional JSON body. -/
structure PantryRequest where
  method : String
  url : String
  contentType : Option String
  body : Option Json

/-- The transport abstraction for the pantry client: what
`m.httpClient.Do(req)` produces, as a function of the client handle and
the issued request. -/
def PantryTransport := Nat → PantryRequest → PantryOutcome

/-- `Config` from the pantry package. -/
structure Config where
  APIKey : String
deriving Repr, DecidableEq

/-- `NewConfigFromEnv`: reads `PANTRY_API_KEY` via `os.Getenv`, which
yields `""` both when the variable is unset and when it is set to the
empty string; `env` models `os.Getenv`. -/
def NewConfigFromEnv (env : String → String) : Except String Config :=
  let apiKey := env "PANTRY_API_KEY"
  if apiKey = "" then
    .error "PANTRY_API_KEY environment variable not set"
  else
    .ok { APIKey := apiKey }

/-- `BasketManager` from the pantry package; the `*http.Client` is an
abstract handle. -/
structure BasketManager where
  baseURL : String
  apiKey : String
  httpClient : Nat
deriving Repr, DecidableEq

/-- `NewBasketManager`: fixed base URL, the config's key, and a freshly
allocated HTTP client (`clientHandle` stands for the allocation). -/
def NewBasketManager (cfg : Config) (clientHandle : Nat) : BasketManager :=
  { baseURL := "https://getpantry.cloud/apiv1/pantry"
    apiKey := cfg.APIKey
    httpClient := clientHandle }

/-- `BasketName`: `fmt.Sprintf("prices_%s", date.Format("2006_01_02"))`. -/
def BasketName (date : Date) : String :=
  "prices_" ++ (padZero 4 date.year ++ "_" ++ padZero 2 date.month ++ "_"
    ++ padZero 2 date.day)

/-- The URL `fmt.Sprintf("%s/%s/basket/%s", m.baseURL, m.apiKey, name)`. -/
def basketURL (m : BasketManager) (basketName : String) : String :=
  m.baseURL ++ "/" ++ m.apiKey ++ "/basket/" ++ basketName

/-- `CreateBasket`: POST to the basket URL; on non-OK, decode the body as
`ErrorResponse`, preferring the provider message and falling back to the
raw status line. Returns the receiver alongside the result (the method
never writes to it). -/
def CreateBasket (m : BasketManager) (basketName : String)
    (transport : PantryTransport) : Except String Unit × BasketManager :=
  let req : PantryRequest :=
    { method := "POST", url := basketURL m basketName
      contentType := some "application/json", body := none }
  match transport m.httpClient req with
  | .failure msg => (.error ("request failed: " ++ msg), m)
  | .response resp =>
    if resp.statusCode ≠ 200 then
      match unmarshalErrorResponse resp.body with
      | some errResp => (.error ("failed to create basket: " ++ errResp.Message), m)
      | none => (.error ("failed to create basket: " ++ resp.status), m)
    else (.ok (), m)

/-- `BasketExists`: GET to the basket URL; a transport failure is an
error, otherwise the result is `statusCode == http.StatusOK`. -/
def BasketExists (m : BasketManager) (basketName : String)
    (transport : PantryTransport) : Except String Bool × BasketManager :=
  let req : PantryRequest :=
    { method := "GET", url := basketURL m basketName
      contentType := none, body := none }
  match transport m.httpClient req with
  | .failure msg => (.error ("request failed: " ++ msg), m)
  | .response resp => (.ok (decide (resp.statusCode = 200)), m)

/-- `ListBaskets`: GET to the baskets-collection URL; non-OK handled by
the shared error-body policy, then the body is decoded as `[]string`
(the underlying JSON error text of a failed decode is abstracted). -/
def ListBaskets (m : BasketManager) (transport : PantryTransport) :
    Except String (List String) × BasketManager :=
  let req : PantryRequest :=
    { method := "GET", url := m.baseURL ++ "/" ++ m.apiKey ++ "/baskets"
      contentType := none, body := none }
  match transport m.httpClient req with
  | .failure msg => (.error ("request failed: " ++ msg), m)
  | .response resp =>
    if resp.statusCode ≠ 200 then
      match unmarshalErrorResponse resp.body with
      | some errResp => (.error ("failed to list baskets: " ++ errResp.Message), m)
      | none => (.error ("failed to list baskets: " ++ resp.status), m)
    else
      match decodeStringArray resp.body with
      | some baskets => (.ok baskets, m)
      | none => (.error "failed to decode response", m)

/-- `UpdateBasket`: marshal the payload (total here, since the payload is
already a `Json` value) and PUT it to the basket URL; non-OK handled by
the shared error-body policy. -/
def UpdateBasket (m : BasketManager) (basketName : String) (data : Json)
    (transport : PantryTransport) : Except String Unit × BasketManager :=
  let req : PantryRequest :=
    { method := "PUT", url := basketURL m basketName
      contentType := some "application/json", body := some data }
  match transport m.httpClient req with
  | .failure msg => (.error ("request failed: " ++ msg), m)
  | .response resp =>
    if resp.statusCode ≠ 200 then
      match unmarshalErrorResponse resp.body with
      | some errResp => (.error ("failed to update basket: " ++ errResp.Message), m)
      | none => (.error ("failed to update basket: " ++ resp.status), m)
    else (.ok (), m)

/-- `GetBasket`: GET to the basket URL; non-OK handled by the shared
error-body policy; on OK the body is decoded into the caller-supplied
target shape, modelled by the decoder `dec` (a decode error, including
an invalid-JSON body, is reported as a decode failure). -/
def GetBasket {α : Type} (m : BasketManager) (basketName : String)
    (dec : Json → Option α) (transport : PantryTransport) :
    Except String α × BasketManager :=
  let req : PantryRequest :=
    { method := "GET", url := basketURL m basketName
      contentType := none, body := none }
  match transport m.httpClient req with
  | .failure msg => (.error ("request failed: " ++ msg), m)
  | .response resp =>
    if resp.statusCode ≠ 200 then
      match unmarshalErrorResponse resp.body with
      | some errResp => (.error ("failed to get basket: " ++ errResp.Message), m)
      | none => (.error ("failed to get basket: " ++ resp.status), m)
    else
      match resp.body.bind dec with
      | some v => (.ok v, m)
      | none => (.error "failed to decode response", m)

/-- The error text the shared non-OK policy produces, after the operation
name: the provider's decoded message when the `ErrorResponse` decode
succeeds, the raw status line otherwise. -/
def providerMessageOrStatus (resp : PantryResponse) : String :=
  match unmarshalErrorResponse resp.body with
  | some errResp => errResp.Message
  | none => resp.status

/-! ## The CLI entry point's output (`cmd/price-tracker/main.go`) -/

/-- JSON rendering of the scraped records, per the struct's json tags. -/
def pricesJson (prices : List EMMSAPrice) : Json :=
  .arr (prices.map fun p =>
    .obj [("date", .str p.date), ("product", .str p.product),
          ("variedad", .str p.variedad), ("precio_min", .num p.precioMin),
          ("precio_max", .num p.precioMax), ("precio_prom", .num p.precioProm)])

/-- The JSON document `runPriceScraping` marshals and writes to the output
file or stdout: the `data` map (`date`, `prices`, `fetched`) is built
before the pantry branch and marshaled unconditionally, so the emitted
shape does not depend on `enablePantry` (`encoding/json` renders map keys
in sorted order). `fetched` is the RFC 3339 rendering of `time.Now()`,
passed in as a parameter. -/
def runOutputJson (date : Date) (prices : List EMMSAPrice) (fetched : String)
    (enablePantry : Bool) : Json :=
  Json.obj [("date", .str (formatISODate date)),
            ("fetched", .str fetched),
            ("prices", pricesJson prices)]

/-! ## Lemmas about the scraper's row loop -/

/-- Unfolding of `parseRow` through the specification-side predicate and
constructor: a row yields `some` exactly when it is well formed, and then
exactly the record `rowRecord` builds. -/
theorem parseRow_eq (date : Date) (cells : List String) :
    parseRow date cells =
      if rowWellFormed cells then some (rowRecord date cells) else none := by
  unfold parseRow rowWellFormed rowRecord
  by_cases h5 : cells.length < 5
  · have h5' : ¬ 5 ≤ cells.length := by omega
    simp [h5, h5']
  · have h5' : 5 ≤ cells.length := by omega
    cases h2 : parseFloat (trimSpace (cells.getD 2 "")) <;>
      cases h3 : parseFloat (trimSpace (cells.getD 3 "")) <;>
        cases h4 : parseFloat (trimSpace (cells.getD 4 "")) <;>
          simp only [List.getD_eq_getElem?_getD] at h2 h3 h4 <;>
            simp [h5, h5', h2, h3, h4]

/-- The body of the `Each` callback in `parsePriceTable`. -/
def rowStep (date : Date) (prices : List EMMSAPrice) (p : Nat × List String) :
    List EMMSAPrice :=
  if p.1 = 0 then prices
  else
    match parseRow date p.2 with
    | none => prices
    | some price => prices ++ [price]

/-- `parsePriceTable` is the fold of `rowStep` over the indexed rows. -/
theorem parsePriceTable_def (rows : List (List String)) (date : Date) :
    parsePriceTable rows date = rows.enum.foldl (rowStep date) [] := rfl

/-- Folding `rowStep` over rows indexed from a nonzero start appends one
record per accepted row, in row order, to the accumulator. -/
theorem foldl_rowStep_enumFrom (date : Date) :
    ∀ (l : List (List String)) (n : Nat) (acc : List EMMSAPrice), n ≠ 0 →
      (List.enumFrom n l).foldl (rowStep date) acc =
        acc ++ l.filterMap (parseRow date)
  | [], n, acc, _ => by simp [List.enumFrom]
  | r :: t, n, acc, hn => by
    have hstep : rowStep date acc (n, r) =
        match parseRow date r with
        | none => acc
        | some price => acc ++ [price] := by
      simp [rowStep, hn]
    simp only [List.enumFrom, List.foldl_cons, hstep]
    cases hr : parseRow date r with
    | none =>
      simp only [List.filterMap_cons, hr]
      exact foldl_rowStep_enumFrom date t (n + 1) acc (by omega)
    | some price =>
      simp only [List.filterMap_cons, hr]
      rw [foldl_rowStep_enumFrom date t (n + 1) (acc ++ [price]) (by omega)]
      simp

/-- `parsePriceTable` drops the header row and keeps, in source order, one
record per row `parseRow` accepts. -/
theorem parsePriceTable_eq_filterMap (rows : List (List String)) (date : Date) :
    parsePriceTable rows date = (rows.drop 1).filterMap (parseRow date) := by
  cases rows with
  | nil => rfl
  | cons r t =>
    rw [parsePriceTable_def]
    have henum : (r :: t).enum = (0, r) :: List.enumFrom 1 t := rfl
    rw [henum, List.foldl_cons]
    have h0 : rowStep date [] (0, r) = [] := by simp [rowStep]
    rw [h0, foldl_rowStep_enumFrom date t 1 [] (by omega)]
    simp

/-- Per-row filtering restated with the specification-side predicate and
constructor. -/
theorem filterMap_parseRow_eq (date : Date) (l : List (List String)) :
    l.filterMap (parseRow date) =
      (l.filter rowWellFormed).map (rowRecord date) := by
  induction l with
  | nil => rfl
  | cons r t ih =>
    rw [List.filterMap_cons, List.filter_cons, parseRow_eq]
    by_cases h : rowWellFormed r
    · simp [h, ih]
    · simp [h, ih]

/-! ## Claims about the scraper -/

/-- C1: `parsePriceTable` skips the first (header) row, drops every later
row with fewer than 5 cells and every row whose three numeric cells do
not all parse as decimals, and produces exactly one record per remaining
well-formed row, in source row order, with no sorting, deduplication, or
partial/zero-valued record for a dropped row. -/
theorem parsePriceTable_row_policy (rows : List (List String)) (date : Date) :
    parsePriceTable rows date =
      ((rows.drop 1).filter rowWellFormed).map (rowRecord date) := by
  rw [parsePriceTable_eq_filterMap, filterMap_parseRow_eq]

/-- C6: on a 200 response whose table has no data rows (at most a header
row), `ScrapePrices` returns an empty sequence and no error. -/
theorem scrapePrices_empty_table_ok (date : Date) (resp : ScrapeResponse)
    (tableOf : String → List (List String))
    (hok : resp.statusCode = 200) (hrows : (tableOf resp.body).length ≤ 1) :
    ScrapePrices date (.response resp) tableOf = .ok [] := by
  have hdrop : (tableOf resp.body).drop 1 = [] := by
    cases h : tableOf resp.body with
    | nil => rfl
    | cons r t =>
      rw [h] at hrows
      simp at hrows
      simp [hrows]
  have hparse : parsePriceTable (tableOf resp.body) date = [] := by
    rw [parsePriceTable_eq_filterMap, hdrop]
    rfl
  simp [ScrapePrices, hok, hparse]

/-- Witness for C6 at a concrete one-row (header-only) table and a 200
response. -/
theorem scrapePrices_empty_table_ok_witness :
    (200 : Nat) = 200 ∧
      ScrapePrices ⟨2025, 6, 17⟩ (.response ⟨200, "<table></table>"⟩)
        (fun _ => [["Producto", "Variedad", "Min", "Max", "Prom"]]) = .ok [] :=
  ⟨rfl, scrapePrices_empty_table_ok ⟨2025, 6, 17⟩ ⟨200, "<table></table>"⟩
    (fun _ => [["Producto", "Variedad", "Min", "Max", "Prom"]]) rfl (by decide)⟩

/-- C2: counterexample — status 204 is a 2xx status, yet `ScrapePrices`
fails with the upstream error carrying the status code and raw body,
because the source tests `resp.StatusCode != http.StatusOK`, i.e. `≠ 200`,
not "non-2xx". -/
theorem scrapePrices_2xx_counterexample :
    ((200 : Nat) ≤ 204 ∧ (204 : Nat) < 300) ∧
      ScrapePrices ⟨2025, 6, 17⟩ (.response ⟨204, "no content"⟩) (fun _ => []) =
        .error "API request failed with status 204: no content" := by
  constructor
  · constructor <;> decide
  · rfl

/-- C2 (amended): `ScrapePrices` fails with the upstream error carrying
the status code and the raw response body exactly when the status is not
200 (`http.StatusOK`) — including for other 2xx statuses — and for a 200
status it does not fail there and proceeds to parse the body. -/
theorem scrapePrices_status_policy (date : Date) (resp : ScrapeResponse)
    (tableOf : String → List (List String)) :
    (resp.statusCode ≠ 200 →
      ScrapePrices date (.response resp) tableOf =
        .error ("API request failed with status " ++ toString resp.statusCode
          ++ ": " ++ resp.body)) ∧
    (resp.statusCode = 200 →
      ScrapePrices date (.response resp) tableOf =
        .ok (parsePriceTable (tableOf resp.body) date)) := by
  constructor <;> intro h <;> simp [ScrapePrices, h]

/-- Witness for the amended C2 at a 404 response and at a 200 response. -/
theorem scrapePrices_status_policy_witness :
    ((404 : Nat) ≠ 200 ∧
      ScrapePrices ⟨2025, 6, 17⟩ (.response ⟨404, "not found"⟩) (fun _ => []) =
        .error "API request failed with status 404: not found") ∧
    ((200 : Nat) = 200 ∧
      ScrapePrices ⟨2025, 6, 17⟩ (.response ⟨200, ""⟩) (fun _ => []) = .ok []) :=
  ⟨⟨by decide,
      (scrapePrices_status_policy ⟨2025, 6, 17⟩ ⟨404, "not found"⟩
        (fun _ => [])).1 (by decide)⟩,
    ⟨rfl,
      (scrapePrices_status_policy ⟨2025, 6, 17⟩ ⟨200, ""⟩ (fun _ => [])).2 rfl⟩⟩

/-! ## Lemmas about zero-padded decimal formatting -/

/-- Every digit character produced by `digitChar` is a decimal digit. -/
theorem digitChar_isDigit (n : Nat) : isDigitChar (digitChar n) = true := by
  match n with
  | 0 | 1 | 2 | 3 | 4 | 5 | 6 | 7 | 8 => rfl
  | n + 9 => rfl

/-- Every character `natDigitsAux` produces is a decimal digit. -/
theorem natDigitsAux_all_digits :
    ∀ (fuel n : Nat), n < fuel → ∀ c ∈ natDigitsAux fuel n, isDigitChar c = true
  | 0, n, h => absurd h (by omega)
  | fuel + 1, n, _ => by
    intro c hc
    by_cases h10 : n < 10
    · simp only [natDigitsAux, if_pos h10, List.mem_singleton] at hc
      rw [hc]
      exact digitChar_isDigit n
    · simp only [natDigitsAux, if_neg h10, List.mem_append,
        List.mem_singleton] at hc
      rcases hc with h1 | h2
      · have hdiv : n / 10 < n := Nat.div_lt_self (by omega) (by omega)
        exact natDigitsAux_all_digits fuel (n / 10) (by omega) c h1
      · rw [h2]
        exact digitChar_isDigit (n % 10)

/-- `natDigitsAux` produces at most `k + 1` characters for `n < 10 ^ (k + 1)`. -/
theorem natDigitsAux_length_le :
    ∀ (fuel n k : Nat), n < fuel → n < 10 ^ (k + 1) →
      (natDigitsAux fuel n).length ≤ k + 1
  | 0, n, _, h, _ => absurd h (by omega)
  | fuel + 1, n, k, _, hk => by
    by_cases h10 : n < 10
    · simp only [natDigitsAux, if_pos h10, List.length_singleton]
      omega
    · cases k with
      | zero =>
        exfalso
        rw [pow_one] at hk
        omega
      | succ j =>
        have hdiv : n / 10 < n := Nat.div_lt_self (by omega) (by omega)
        have h2 : n / 10 < 10 ^ (j + 1) := by
          rw [Nat.div_lt_iff_lt_mul (by omega : 0 < 10)]
          calc n < 10 ^ (j + 2) := hk
            _ = 10 ^ (j + 1) * 10 := by ring
        have ih := natDigitsAux_length_le fuel (n / 10) j (by omega) h2
        simp only [natDigitsAux, if_neg h10, List.length_append,
          List.length_singleton]
        omega

/-- Every character of `natDigits n` is a decimal digit. -/
theorem natDigits_all_digits (n : Nat) :
    ∀ c ∈ natDigits n, isDigitChar c = true :=
  natDigitsAux_all_digits (n + 1) n (by omega)

/-- `natDigits n` has at most `k + 1` characters for `n < 10 ^ (k + 1)`. -/
theorem natDigits_length_le (n k : Nat) (h : n < 10 ^ (k + 1)) :
    (natDigits n).length ≤ k + 1 :=
  natDigitsAux_length_le (n + 1) n k (by omega) h

/-- `padZero w n` has exactly `w` characters once the digits fit. -/
theorem padZero_length (w n : Nat) (h : (natDigits n).length ≤ w) :
    (padZero w n).data.length = w := by
  simp only [padZero, List.length_append, List.length_replicate]
  omega

/-- Every character of `padZero w n` is a decimal digit. -/
theorem padZero_all_digits (w n : Nat) :
    ∀ c ∈ (padZero w n).data, isDigitChar c = true := by
  intro c hc
  rcases List.mem_append.mp hc with h | h
  · rw [List.eq_of_mem_replicate h]
    rfl
  · exact natDigits_all_digits n c h

/-- The characters of an appended string are the appended characters. -/
theorem string_data_append (a b : String) : (a ++ b).data = a.data ++ b.data :=
  rfl

/-- The shape `prices_` followed by 4, 2 and 2 decimal digits separated by
underscores (the pattern `prices_\d\d\d\d_\d\d_\d\d`). -/
def pricePatternHolds (s : String) : Prop :=
  ∃ y mo dy : List Char,
    s.data = "prices_".data ++ (y ++ '_' :: (mo ++ '_' :: dy)) ∧
    y.length = 4 ∧ mo.length = 2 ∧ dy.length = 2 ∧
    ∀ c ∈ y ++ mo ++ dy, isDigitChar c = true

/-- The characters of `BasketName d`, split at the underscores. -/
theorem basketName_data (d : Date) :
    (BasketName d).data =
      "prices_".data ++ ((padZero 4 d.year).data ++ '_' ::
        ((padZero 2 d.month).data ++ '_' :: (padZero 2 d.day).data)) := by
  simp only [BasketName, string_data_append]
  simp [padZero]

/-! ## Claims about `BasketName` and the CLI output shape -/

/-- C7: `BasketName` is a pure function of the date, formatting it as
`prices_<year>_<month>_<day>` with four-digit year and zero-padded
two-digit month and day; on every calendar date (4-digit year) the output
matches `prices_` followed by 4, 2 and 2 digits separated by underscores,
and the three cited dates map to the cited strings. -/
theorem basketName_correct (d : Date)
    (hm1 : 1 ≤ d.month) (hm2 : d.month ≤ 12)
    (hd1 : 1 ≤ d.day) (hd2 : d.day ≤ 31) (hy : d.year ≤ 9999) :
    pricePatternHolds (BasketName d) ∧
    BasketName ⟨2025, 6, 17⟩ = "prices_2025_06_17" ∧
    BasketName ⟨2023, 12, 1⟩ = "prices_2023_12_01" ∧
    BasketName ⟨2024, 2, 29⟩ = "prices_2024_02_29" := by
  refine ⟨?_, by decide, by decide, by decide⟩
  refine ⟨(padZero 4 d.year).data, (padZero 2 d.month).data,
    (padZero 2 d.day).data, basketName_data d, ?_, ?_, ?_, ?_⟩
  · exact padZero_length 4 d.year
      (natDigits_length_le d.year 3 (by norm_num; omega))
  · exact padZero_length 2 d.month
      (natDigits_length_le d.month 1 (by norm_num; omega))
  · exact padZero_length 2 d.day
      (natDigits_length_le d.day 1 (by norm_num; omega))
  · intro c hc
    rcases List.mem_append.mp hc with h | h
    · rcases List.mem_append.mp h with h1 | h2
      · exact padZero_all_digits 4 d.year c h1
      · exact padZero_all_digits 2 d.month c h2
    · exact padZero_all_digits 2 d.day c h

/-- Witness for C7 at the date 2025-06-17. -/
theorem basketName_correct_witness :
    ((1 : Nat) ≤ 6 ∧ (6 : Nat) ≤ 12 ∧ (1 : Nat) ≤ 17 ∧ (17 : Nat) ≤ 31 ∧
      (2025 : Nat) ≤ 9999) ∧
    (pricePatternHolds (BasketName ⟨2025, 6, 17⟩) ∧
      BasketName ⟨2025, 6, 17⟩ = "prices_2025_06_17" ∧
      BasketName ⟨2023, 12, 1⟩ = "prices_2023_12_01" ∧
      BasketName ⟨2024, 2, 29⟩ = "prices_2024_02_29") :=
  ⟨⟨by decide, by decide, by decide, by decide, by decide⟩,
    basketName_correct ⟨2025, 6, 17⟩ (by decide) (by decide) (by decide)
      (by decide) (by decide)⟩

/-- C3: counterexample — with remote persistence disabled (`-pantry` not
set) and the result written to stdout, the emitted JSON is still the
wrapped object with `date`, `fetched` and `prices` fields, not a bare
array: `main.go` builds the `data` map before the pantry branch and
marshals it unconditionally. -/
theorem runOutput_bare_array_counterexample :
    (runOutputJson ⟨2025, 6, 17⟩ [] "2025-06-17T12:00:00Z" false).isBareArray
        = false ∧
    runOutputJson ⟨2025, 6, 17⟩ [] "2025-06-17T12:00:00Z" false =
      Json.obj [("date", .str "2025-06-17"),
                ("fetched", .str "2025-06-17T12:00:00Z"),
                ("prices", .arr [])] :=
  ⟨rfl, rfl⟩

/-- C3 (amended): the emitted JSON document is the wrapped object with
`date`, `prices` and `fetched` fields in every case; its shape does not
depend on whether persistence is enabled, and a bare array of records is
never emitted. -/
theorem runOutput_always_wrapped (date : Date) (prices : List EMMSAPrice)
    (fetched : String) (enablePantry : Bool) :
    runOutputJson date prices fetched enablePantry =
      Json.obj [("date", .str (formatISODate date)), ("fetched", .str fetched),
                ("prices", pricesJson prices)] ∧
    (runOutputJson date prices fetched enablePantry).isBareArray = false ∧
    runOutputJson date prices fetched enablePantry =
      runOutputJson date prices fetched true :=
  ⟨rfl, rfl, rfl⟩

/-! ## Claims about the Pantry client -/

/-- C4: on every non-OK response, every store-client operation first tries
to decode the body as an object with a `message` string field and builds
its error text from the provider's message when that decode succeeds,
falling back to the raw HTTP status line otherwise. -/
theorem pantry_error_body_policy (m : BasketManager) (basketName : String)
    (data : Json) {α : Type} (dec : Json → Option α) (resp : PantryResponse)
    (h : resp.statusCode ≠ 200) :
    (CreateBasket m basketName (fun _ _ => .response resp)).1 =
      .error ("failed to create basket: " ++ providerMessageOrStatus resp) ∧
    (UpdateBasket m basketName data (fun _ _ => .response resp)).1 =
      .error ("failed to update basket: " ++ providerMessageOrStatus resp) ∧
    (GetBasket m basketName dec (fun _ _ => .response resp)).1 =
      .error ("failed to get basket: " ++ providerMessageOrStatus resp) ∧
    (ListBaskets m (fun _ _ => .response resp)).1 =
      .error ("failed to list baskets: " ++ providerMessageOrStatus resp) := by
  unfold CreateBasket UpdateBasket GetBasket ListBaskets providerMessageOrStatus
  cases hu : unmarshalErrorResponse resp.body <;> simp [h, hu]

/-- Witness for C4: a 400 response with body `object with message
"invalid request"` yields a create error using the provider message, and
the same 400 with a non-JSON body falls back to the status line. -/
theorem pantry_error_body_policy_witness :
    ((400 : Nat) ≠ 200 ∧
      (CreateBasket (NewBasketManager ⟨"test-key"⟩ 0) "test-basket"
        (fun _ _ => .response ⟨400, "400 Bad Request",
          some (.obj [("message", .str "invalid request")])⟩)).1 =
        .error "failed to create basket: invalid request") ∧
    ((400 : Nat) ≠ 200 ∧
      (CreateBasket (NewBasketManager ⟨"test-key"⟩ 0) "test-basket"
        (fun _ _ => .response ⟨400, "400 Bad Request", none⟩)).1 =
        .error "failed to create basket: 400 Bad Request") :=
  ⟨⟨by decide,
      (pantry_error_body_policy (NewBasketManager ⟨"test-key"⟩ 0) "test-basket"
        .null (fun _ => none (α := Unit))
        ⟨400, "400 Bad Request", some (.obj [("message", .str "invalid request")])⟩
        (by decide)).1⟩,
    ⟨by decide,
      (pantry_error_body_policy (NewBasketManager ⟨"test-key"⟩ 0) "test-basket"
        .null (fun _ => none (α := Unit))
        ⟨400, "400 Bad Request", none⟩ (by decide)).1⟩⟩

/-- C5: `BasketExists` answers `true` exactly on status 200, `false` with
no error on any other status (404 included), and surfaces every
transport-level failure as an error, never as a plain `false`. -/
theorem basketExists_policy (m : BasketManager) (basketName : String)
    (resp : PantryResponse) (e : String) :
    (resp.statusCode = 200 →
      (BasketExists m basketName (fun _ _ => .response resp)).1 = .ok true) ∧
    (resp.statusCode ≠ 200 →
      (BasketExists m basketName (fun _ _ => .response resp)).1 = .ok false) ∧
    (BasketExists m basketName (fun _ _ => .failure e)).1 =
      .error ("request failed: " ++ e) := by
  refine ⟨fun h => ?_, fun h => ?_, ?_⟩ <;> simp [BasketExists, *]

/-- Witness for C5 at status 200, status 404 and a failed connection. -/
theorem basketExists_policy_witness :
    ((200 : Nat) = 200 ∧
      (BasketExists (NewBasketManager ⟨"test-key"⟩ 0) "existing-basket"
        (fun _ _ => .response ⟨200, "200 OK", none⟩)).1 = .ok true) ∧
    ((404 : Nat) ≠ 200 ∧
      (BasketExists (NewBasketManager ⟨"test-key"⟩ 0) "non-existent-basket"
        (fun _ _ => .response ⟨404, "404 Not Found", none⟩)).1 = .ok false) ∧
    (BasketExists (NewBasketManager ⟨"test-key"⟩ 0) "any-basket"
      (fun _ _ => .failure "connection refused")).1 =
        .error "request failed: connection refused" :=
  ⟨⟨rfl,
      (basketExists_policy (NewBasketManager ⟨"test-key"⟩ 0) "existing-basket"
        ⟨200, "200 OK", none⟩ "").1 rfl⟩,
    ⟨by decide,
      (basketExists_policy (NewBasketManager ⟨"test-key"⟩ 0) "non-existent-basket"
        ⟨404, "404 Not Found", none⟩ "").2.1 (by decide)⟩,
    (basketExists_policy (NewBasketManager ⟨"test-key"⟩ 0) "any-basket"
      ⟨0, "", none⟩ "connection refused").2.2⟩

/-- C8: every `BasketManager` operation leaves the manager's
post-construction fields (base URL, API key, HTTP client handle)
unchanged, whatever the transport does. -/
theorem manager_state_unchanged (m : BasketManager) (basketName : String)
    (data : Json) {α : Type} (dec : Json → Option α)
    (transport : PantryTransport) :
    (CreateBasket m basketName transport).2 = m ∧
    (BasketExists m basketName transport).2 = m ∧
    (ListBaskets m transport).2 = m ∧
    (UpdateBasket m basketName data transport).2 = m ∧
    (GetBasket m basketName dec transport).2 = m := by
  refine ⟨?_, ?_, ?_, ?_, ?_⟩ <;>
    · simp only [CreateBasket, BasketExists, ListBaskets, UpdateBasket,
        GetBasket]
      repeat' split
      all_goals rfl

/-- `json.Unmarshal` into `ErrorResponse` succeeds with the zero value on
an object none of whose keys matches `message`. -/
theorem decodeErrorFields_no_message :
    ∀ (fields : List (String × Json)) (acc : String),
      (∀ kv ∈ fields, keyToLower kv.1 ≠ "message") →
      decodeErrorFields fields acc = some acc
  | [], _, _ => rfl
  | (k, v) :: rest, acc, h => by
    have hk : keyToLower k ≠ "message" := h (k, v) (by simp)
    simp only [decodeErrorFields, if_neg hk]
    exact decodeErrorFields_no_message rest acc
      (fun kv hkv => h kv (by simp [hkv]))

/-- C9: on a non-OK response whose body is a JSON object without a
`message` field (such as an empty object or an object with only other
keys), decoding into the error shape succeeds with an empty message, so
the operation's error is built from the empty provider message rather
than falling back to the HTTP status line. -/
theorem pantry_error_empty_message (m : BasketManager) (basketName : String)
    (resp : PantryResponse) (fields : List (String × Json))
    (h : resp.statusCode ≠ 200) (hb : resp.body = some (.obj fields))
    (hnm : ∀ kv ∈ fields, keyToLower kv.1 ≠ "message") :
    unmarshalErrorResponse resp.body = some { Message := "" } ∧
    providerMessageOrStatus resp = "" ∧
    (CreateBasket m basketName (fun _ _ => .response resp)).1 =
      .error ("failed to create basket: " ++ "") := by
  have hu : unmarshalErrorResponse resp.body = some { Message := "" } := by
    rw [hb]
    simp [unmarshalErrorResponse, decodeErrorFields_no_message fields "" hnm]
  refine ⟨hu, ?_, ?_⟩
  · simp [providerMessageOrStatus, hu]
  · simp [CreateBasket, h, hu]

/-- Witness for C9 at a 400 response with body an object holding only an
`error` key. -/
theorem pantry_error_empty_message_witness :
    ((400 : Nat) ≠ 200 ∧
      (∀ kv ∈ [("error", Json.str "x")], keyToLower kv.1 ≠ "message")) ∧
    (unmarshalErrorResponse (some (.obj [("error", .str "x")])) =
        some { Message := "" } ∧
      providerMessageOrStatus ⟨400, "400 Bad Request",
        some (.obj [("error", .str "x")])⟩ = "" ∧
      (CreateBasket (NewBasketManager ⟨"test-key"⟩ 0) "test-basket"
        (fun _ _ => .response ⟨400, "400 Bad Request",
          some (.obj [("error", .str "x")])⟩)).1 =
        .error ("failed to create basket: " ++ "")) :=
  ⟨⟨by decide, by decide⟩,
    pantry_error_empty_message (NewBasketManager ⟨"test-key"⟩ 0) "test-basket"
      ⟨400, "400 Bad Request", some (.obj [("error", .str "x")])⟩
      [("error", .str "x")] (by decide) rfl (by decide)⟩

/-- C10: `NewConfigFromEnv` treats an empty `PANTRY_API_KEY` exactly like
an unset one (`os.Getenv` yields `""` in both cases), failing with the
error naming the variable; it succeeds if and only if the variable holds
a non-empty string, and then the config's key equals that string. -/
theorem newConfigFromEnv_policy (env : String → String) :
    (env "PANTRY_API_KEY" = "" →
      NewConfigFromEnv env =
        .error "PANTRY_API_KEY environment variable not set") ∧
    ((∃ cfg, NewConfigFromEnv env = .ok cfg) ↔ env "PANTRY_API_KEY" ≠ "") ∧
    (∀ cfg, NewConfigFromEnv env = .ok cfg →
      cfg.APIKey = env "PANTRY_API_KEY") := by
  by_cases h : env "PANTRY_API_KEY" = "" <;>
    simp [NewConfigFromEnv, h]

/-- Witness for C10 with the variable empty/unset and with it set to
`test-key-123`. -/
theorem newConfigFromEnv_policy_witness :
    ((fun _ => "") "PANTRY_API_KEY" = "" ∧
      NewConfigFromEnv (fun _ => "") =
        .error "PANTRY_API_KEY environment variable not set") ∧
    ((∃ cfg, NewConfigFromEnv (fun _ => "test-key-123") = .ok cfg) ↔
      (fun _ => "test-key-123") "PANTRY_API_KEY" ≠ "") ∧
    (∀ cfg, NewConfigFromEnv (fun _ => "test-key-123") = .ok cfg →
      cfg.APIKey = (fun _ => "test-key-123") "PANTRY_API_KEY") :=
  ⟨⟨rfl, (newConfigFromEnv_policy (fun _ => "")).1 rfl⟩,
    (newConfigFromEnv_policy (fun _ => "test-key-123")).2.1,
    (newConfigFromEnv_policy (fun _ => "test-key-123")).2.2⟩
